import Mathlib

/-!
Verification of the repository `vmess_to_clash`.

A shallow embedding of the core of the program `vmess_to_clash.py`:
the link decoder `decode_vmess` (scheme check, base64 decode, UTF-8
decode, JSON parse) and the config mapper `generate_clash_config`.

Python's dynamically-typed values are embedded as the inductive `Value`;
the fallible Python operations used by the source (`dict.get` on an
arbitrary object, `int(...)`, `str.lower()`) are embedded as
`Except`-returning functions, so that a Python exception raised inside a
function appears as an `Except.error` result.

Machine-level caveats of the embedding, stated once here:
* `int(str)` is modelled for ASCII digit strings (with optional sign,
  surrounding ASCII whitespace and single underscores between digits);
  Unicode digit forms are out of scope.
* JSON number literals with a fraction or exponent part are carried
  verbatim as `Value.VFloatTok` tokens; IEEE-754 semantics (and hence
  `int()`/truthiness on such values) are out of scope — no claim below
  touches them.
-/

/-- A Python/JSON value as produced by `json.loads` and consumed by
`generate_clash_config`. `VFloatTok` carries the raw source token of a
non-integer JSON number literal (floating point is not interpreted). -/
inductive Value where
  | VStr : String → Value
  | VInt : Int → Value
  | VFloatTok : String → Value
  | VBool : Bool → Value
  | VNull : Value
  | VArr : List Value → Value
  | VObj : List (String × Value) → Value
deriving Repr

open Value

/-- Python truthiness (`bool(v)`): empty string, zero, `False`, `None`,
empty list and empty dict are falsy. For a float token: falsy when the
literal has no nonzero digit (i.e. denotes ±0.0); `NaN`/`Infinity`
tokens are truthy. -/
def truthy : Value → Bool
  | VStr s => !s.data.isEmpty
  | VInt n => n ≠ 0
  | VFloatTok t => t.data.any (fun c => ('1' ≤ c ∧ c ≤ '9') ∨ c = 'N' ∨ c = 'I')
  | VBool b => b
  | VNull => false
  | VArr l => !l.isEmpty
  | VObj l => !l.isEmpty

/-- Lookup in a Python dict represented as its insertion list of pairs:
for a duplicated key the last value wins, as in `dict` construction. -/
def pyLookup (l : List (String × Value)) (k : String) : Option Value :=
  l.foldl (fun acc p => if p.1 = k then some p.2 else acc) none

/-- Lookup with a default: the semantics of `dict.get(k, d)`. -/
def pyLookupD (l : List (String × Value)) (k : String) (d : Value) : Value :=
  (pyLookup l k).getD d

/-- Python `v.get(k, d)` on an arbitrary value: succeeds on a dict,
raises `AttributeError` on anything else. -/
def pyGet (v : Value) (k : String) (d : Value) : Except String Value :=
  match v with
  | VObj l => .ok (pyLookupD l k d)
  | _ => .error "AttributeError: object has no attribute get"

/-- One base-10 digit. -/
def digitVal (c : Char) : Option Nat :=
  if '0' ≤ c ∧ c ≤ '9' then some (c.toNat - 48) else none

/-- Digits of an integer literal after its first digit: `int()` accepts a
single underscore between two digits. -/
def digitsRest : List Char → Nat → Option Nat
  | [], acc => some acc
  | '_' :: c :: rest, acc =>
    match digitVal c with
    | some d => digitsRest rest (acc * 10 + d)
    | none => none
  | ['_'], _ => none
  | c :: rest, acc =>
    match digitVal c with
    | some d => digitsRest rest (acc * 10 + d)
    | none => none

/-- ASCII whitespace stripped by `int(str)`. -/
def isPyWs (c : Char) : Bool :=
  c = ' ' ∨ c = '\t' ∨ c = '\n' ∨ c = '\x0d' ∨ c = '\x0b' ∨ c = '\x0c'

/-- The body of `int(str)` after whitespace stripping: optional sign then
a nonempty digit sequence. -/
def intOfSigned : List Char → Option Int
  | '-' :: c :: rest =>
    match digitVal c with
    | some d => (digitsRest rest d).map (fun n => -(n : Int))
    | none => none
  | '+' :: c :: rest =>
    match digitVal c with
    | some d => (digitsRest rest d).map (fun n => (n : Int))
    | none => none
  | c :: rest =>
    match digitVal c with
    | some d => (digitsRest rest d).map (fun n => (n : Int))
    | none => none
  | [] => none

/-- Python `int(str)`: strip surrounding ASCII whitespace, then parse an
optionally signed base-10 integer literal. -/
def pyIntStr (s : String) : Option Int :=
  intOfSigned (((s.data.dropWhile isPyWs).reverse.dropWhile isPyWs).reverse)

/-- Python `int(v)` on an embedded value. `int(bool)` gives 0 or 1;
`int(None)`, `int(list)`, `int(dict)` raise `TypeError`; float-token
coercion is out of the embedding's scope (see module header). -/
def pyInt : Value → Except String Int
  | VInt n => .ok n
  | VBool b => .ok (if b then 1 else 0)
  | VStr s =>
    match pyIntStr s with
    | some n => .ok n
    | none => .error ("invalid literal for int: " ++ s)
  | VFloatTok _ => .error "float int-coercion not modelled"
  | _ => .error "TypeError: int argument"

/-- True when `pyInt` succeeds. -/
def pyIntOk (v : Value) : Bool :=
  match pyInt v with
  | .ok _ => true
  | .error _ => false

/-- ASCII lowercase of one character. -/
def asciiLower (c : Char) : Char :=
  if 'A' ≤ c ∧ c ≤ 'Z' then Char.ofNat (c.toNat + 32) else c

/-- Python `v.lower()`: defined on `str` (ASCII case mapping suffices for
the source's use), `AttributeError` on any other value. -/
def pyLower : Value → Except String String
  | VStr s => .ok ⟨s.data.map asciiLower⟩
  | _ => .error "AttributeError: object has no attribute lower"

/-- True when `v` is a string value. -/
def isVStr : Value → Bool
  | VStr _ => true
  | _ => false

/-- Python `v == lit` for a string literal `lit`: true only for the equal
string (no cross-type equality holds against a `str`). -/
def isStrEq (v : Value) (lit : String) : Bool :=
  match v with
  | VStr s => s = lit
  | _ => false

/-- The `ws-opts` sub-structure: a path and the `headers` dict. -/
structure WsOpts where
  path : Value
  headers : List (String × Value)
deriving Repr

/-- One entry of the output `proxies` sequence. -/
structure ClashProxy where
  name : Value
  type : String
  server : Value
  port : Int
  uuid : Value
  alterId : Int
  cipher : Value
  udp : Bool
  tls : Bool
  skipCertVerify : Bool
  network : Value
  wsOpts : Option WsOpts
deriving Repr

/-- One entry of the output `proxy-groups` sequence. -/
structure ProxyGroup where
  name : String
  type : String
  url : Option String
  interval : Option Nat
  proxies : List Value
deriving Repr

/-- The full output document of `generate_clash_config`. -/
structure ClashConfig where
  port : Nat
  socksPort : Nat
  allowLan : Bool
  mode : String
  logLevel : String
  externalController : String
  proxies : List ClashProxy
  proxyGroups : List ProxyGroup
  rules : List String
deriving Repr

/-- Line 73 of the source:
`security = vmess_config.get("scy", "auto") or vmess_config.get("security", "auto")`.
The Python `or` keeps the left operand when it is truthy. -/
def resolveSecurity (cfg : Value) : Except String Value := do
  let scy ← pyGet cfg "scy" (VStr "auto")
  if truthy scy then pure scy else pyGet cfg "security" (VStr "auto")

/-- The mapper `generate_clash_config` (source lines 31–107): builds the fixed
document skeleton, resolves the cipher, assembles the proxy dict in
source order, attaches `ws-opts` when the network is `"ws"`, and appends
the proxy and its name to the two predefined groups. An uncaught Python
exception (`int(...)`, `.lower()`, `.get` on a non-dict) is an
`Except.error`. -/
def generate_clash_config (cfg : Value) : Except String ClashConfig := do
  let proxyName ← pyGet cfg "ps" (VStr "Vmess节点")
  let sec0 ← resolveSecurity cfg
  let lowered ← pyLower sec0
  let security := if lowered = "zero" then VStr "auto" else sec0
  let server ← pyGet cfg "add" (VStr "")
  let portV ← pyGet cfg "port" (VInt 443)
  let port ← pyInt portV
  let uuid ← pyGet cfg "id" (VStr "")
  let aidV ← pyGet cfg "aid" (VInt 0)
  let aid ← pyInt aidV
  let tlsV ← pyGet cfg "tls" (VStr "")
  let netV ← pyGet cfg "net" (VStr "tcp")
  let wsOpts ←
    if isStrEq netV "ws" then do
      let pathV ← pyGet cfg "path" (VStr "/")
      let hostV ← pyGet cfg "host" (VStr "")
      pure (some (WsOpts.mk pathV [("host", hostV)]))
    else
      pure none
  let proxy : ClashProxy :=
    { name := proxyName
      type := "vmess"
      server := server
      port := port
      uuid := uuid
      alterId := aid
      cipher := security
      udp := true
      tls := isStrEq tlsV "tls"
      skipCertVerify := true
      network := netV
      wsOpts := wsOpts }
  pure
    { port := 7890
      socksPort := 7891
      allowLan := true
      mode := "rule"
      logLevel := "info"
      externalController := "127.0.0.1:9090"
      proxies := [proxy]
      proxyGroups :=
        [ { name := "PROXY", type := "select", url := none, interval := none
            proxies := [VStr "自动选择", proxyName] }
        , { name := "自动选择", type := "url-test"
            url := some "http://www.gstatic.com/generate_204"
            interval := some 300
            proxies := [proxyName] } ]
      rules := ["MATCH,PROXY"] }

/-! ## Base64

`base64.b64encode` and `base64.b64decode` (as called with a `str`
argument and default keyword arguments, i.e. CPython's
`binascii.a2b_base64` in non-strict mode: characters outside the
alphabet are discarded, `'='` terminates a quartet once at least two
data characters are pending, and leftover data characters at the end are
a padding error). Bytes are `Nat`s below 256. -/

/-- The standard base64 alphabet. -/
def b64Alphabet : List Char :=
  "ABCDEFGHIJKLMNOPQRSTUVWXYZabcdefghijklmnopqrstuvwxyz0123456789+/".data

/-- Character of a sextet. -/
def b64Char (v : Nat) : Char := b64Alphabet.getD v 'A'

/-- Sextet of a character, `none` when outside the alphabet. -/
def b64Val (c : Char) : Option Nat := b64Alphabet.indexOf? c

/-- Python `base64.b64encode`: 3-byte groups become 4 alphabet characters; a
2-byte tail becomes 3 characters and `"="`; a 1-byte tail becomes 2
characters and `"=="`. -/
def b64encodeList : List Nat → List Char
  | a :: b :: c :: rest =>
    b64Char (a / 4) :: b64Char (a % 4 * 16 + b / 16) ::
      b64Char (b % 16 * 4 + c / 64) :: b64Char (c % 64) :: b64encodeList rest
  | [a, b] => [b64Char (a / 4), b64Char (a % 4 * 16 + b / 16), b64Char (b % 16 * 4), '=']
  | [a] => [b64Char (a / 4), b64Char (a % 4 * 16), '=', '=']
  | [] => []

/-- The encoder again, producing a string. -/
def b64encode (bs : List Nat) : String := ⟨b64encodeList bs⟩

/-- The quartet loop of `binascii.a2b_base64` in non-strict mode.
State: `quadPos` (data characters pending in the current quartet),
`leftchar` (their undelivered low bits), `pads` (padding characters seen
for this quartet), `acc` (output bytes, reversed). -/
def b64core : List Char → Nat → Nat → Nat → List Nat → Except String (List Nat)
  | [], quadPos, _, _, acc =>
    if quadPos = 0 then .ok acc.reverse
    else if quadPos = 1 then .error "Invalid base64-encoded string"
    else .error "Incorrect padding"
  | c :: rest, quadPos, leftchar, pads, acc =>
    if c = '=' then
      if 2 ≤ quadPos then
        if 4 ≤ quadPos + (pads + 1) then .ok acc.reverse
        else b64core rest quadPos leftchar (pads + 1) acc
      else b64core rest quadPos leftchar pads acc
    else
      match b64Val c with
      | none => b64core rest quadPos leftchar pads acc
      | some v =>
        match quadPos with
        | 0 => b64core rest 1 v 0 acc
        | 1 => b64core rest 2 (v % 16) 0 ((leftchar * 4 + v / 16) :: acc)
        | 2 => b64core rest 3 (v % 4) 0 ((leftchar * 16 + v / 4) :: acc)
        | _ => b64core rest 0 0 0 ((leftchar * 64 + v) :: acc)

/-- Python `base64.b64decode` on a `str` argument: the argument is first
ASCII-encoded (failure on a non-ASCII character), then fed to the
non-strict quartet loop. -/
def b64decode (s : String) : Except String (List Nat) :=
  if s.data.all (fun c => c.toNat < 128) then b64core s.data 0 0 0 []
  else .error "string argument should contain only ASCII characters"

/-! ## UTF-8

The strict `'utf-8'` codec used by `bytes.decode('utf-8')`: rejects
continuation errors, overlong forms, surrogates and code points above
`U+10FFFF`. Encoding is total on `Char` (whose code points are exactly
the valid scalar values). -/

/-- UTF-8 bytes of one character. -/
def utf8EncodeChar (c : Char) : List Nat :=
  let n := c.toNat
  if n < 128 then [n]
  else if n < 2048 then [192 + n / 64, 128 + n % 64]
  else if n < 65536 then [224 + n / 4096, 128 + n / 64 % 64, 128 + n % 64]
  else [240 + n / 262144, 128 + n / 4096 % 64, 128 + n / 64 % 64, 128 + n % 64]

/-- UTF-8 bytes of a string. -/
def utf8Encode (s : String) : List Nat := s.data.flatMap utf8EncodeChar

/-- A UTF-8 continuation byte. -/
def isCont (b : Nat) : Bool := 128 ≤ b ∧ b < 192

/-- Decode one code point: returns it with the remaining bytes, `none`
on any malformed prefix. The lead-byte dependent bounds on the first
continuation byte reject overlong forms, surrogates and values above
`U+10FFFF`, exactly as CPython's strict UTF-8 decoder does. -/
def utf8DecodeOne : List Nat → Option (Nat × List Nat)
  | [] => none
  | b :: rest =>
    if b < 128 then some (b, rest)
    else if b < 194 then none
    else if b < 224 then
      match rest with
      | b2 :: r =>
        if isCont b2 then some ((b - 192) * 64 + (b2 - 128), r) else none
      | [] => none
    else if b < 240 then
      match rest with
      | b2 :: b3 :: r =>
        if isCont b2 ∧ isCont b3 ∧ (b = 224 → 160 ≤ b2) ∧ (b = 237 → b2 < 160) then
          some ((b - 224) * 4096 + (b2 - 128) * 64 + (b3 - 128), r)
        else none
      | _ => none
    else if b < 245 then
      match rest with
      | b2 :: b3 :: b4 :: r =>
        if isCont b2 ∧ isCont b3 ∧ isCont b4 ∧
            (b = 240 → 144 ≤ b2) ∧ (b = 244 → b2 < 144) then
          some ((b - 240) * 262144 + (b2 - 128) * 4096 + (b3 - 128) * 64 + (b4 - 128), r)
        else none
      | _ => none
    else none

/-- The decoding loop, fueled by the number of bytes (each step consumes
at least one byte, so the initial fuel in `utf8Decode` never runs out). -/
def utf8DecodeLoop : Nat → List Nat → Option (List Char)
  | _, [] => some []
  | 0, _ :: _ => none
  | fuel + 1, bs@(_ :: _) =>
    match utf8DecodeOne bs with
    | none => none
    | some (n, rest) => (utf8DecodeLoop fuel rest).map (fun cs => Char.ofNat n :: cs)

/-- Python `bytes.decode` with the strict utf-8 codec. -/
def utf8Decode (bs : List Nat) : Option String :=
  (utf8DecodeLoop bs.length bs).map (fun cs => ⟨cs⟩)

/-! ## JSON

`json.loads` with default arguments: JSON whitespace is
`[ \t\n\r]`, strings are strict (unescaped control characters
rejected, surrogate escape pairs joined), numbers follow the scanner's
regex `(-?(?:0|[1-9]\d*))(\.\d+)?([eE][-+]?\d+)?` (integer literals
become Python `int`s, anything with a fraction or exponent part stays a
float token), the extension constants `NaN`, `Infinity`, `-Infinity`
are accepted, and for duplicate object keys the last value wins (the
pair list is kept in order; `pyLookup` reads the last match).
Recursion is fueled; `jsonParse` supplies fuel that dominates the
possible call-chain depth for its input. -/

/-- JSON whitespace. -/
def jsonWs (c : Char) : Bool := c = ' ' ∨ c = '\t' ∨ c = '\n' ∨ c = '\x0d'

/-- Skip JSON whitespace. -/
def skipWs (cs : List Char) : List Char := cs.dropWhile jsonWs

/-- Value of one hex digit. -/
def hexVal (c : Char) : Option Nat :=
  if '0' ≤ c ∧ c ≤ '9' then some (c.toNat - 48)
  else if 'a' ≤ c ∧ c ≤ 'f' then some (c.toNat - 87)
  else if 'A' ≤ c ∧ c ≤ 'F' then some (c.toNat - 55)
  else none

/-- Value of a `\uXXXX` escape. -/
def hex4 (a b c d : Char) : Option Nat := do
  let x1 ← hexVal a
  let x2 ← hexVal b
  let x3 ← hexVal c
  let x4 ← hexVal d
  pure (x1 * 4096 + x2 * 256 + x3 * 16 + x4)

/-- The single-character string escapes. -/
def escChar (c : Char) : Option Char :=
  if c = '"' then some '"'
  else if c = '\\' then some '\\'
  else if c = '/' then some '/'
  else if c = 'b' then some '\x08'
  else if c = 'f' then some '\x0c'
  else if c = 'n' then some '\n'
  else if c = 'r' then some '\x0d'
  else if c = 't' then some '\t'
  else none

/-- Scan a string body after its opening quote, returning the decoded
characters and the input after the closing quote. Lone surrogate
escapes (representable in a Python `str` but not in a Lean `Char`) are
out of the embedding's scope and rejected. -/
def scanStr : List Char → Option (List Char × List Char)
  | [] => none
  | '"' :: rest => some ([], rest)
  | '\\' :: 'u' :: h1 :: h2 :: h3 :: h4 :: rest =>
    match hex4 h1 h2 h3 h4 with
    | none => none
    | some n =>
      if n < 55296 ∨ 57344 ≤ n then
        (scanStr rest).map (fun p => (Char.ofNat n :: p.1, p.2))
      else if 56320 ≤ n then none
      else
        match rest with
        | '\\' :: 'u' :: g1 :: g2 :: g3 :: g4 :: rest2 =>
          match hex4 g1 g2 g3 g4 with
          | none => none
          | some m =>
            if 56320 ≤ m ∧ m < 57344 then
              (scanStr rest2).map
                (fun p => (Char.ofNat (65536 + (n - 55296) * 1024 + (m - 56320)) :: p.1, p.2))
            else none
        | _ => none
  | '\\' :: c :: rest =>
    match escChar c with
    | some e => (scanStr rest).map (fun p => (e :: p.1, p.2))
    | none => none
  | c :: rest =>
    if c.toNat < 32 then none
    else (scanStr rest).map (fun p => (c :: p.1, p.2))

/-- Split off a run of decimal digits. -/
def spanDigits (cs : List Char) : List Char × List Char :=
  (cs.takeWhile (fun c => '0' ≤ c ∧ c ≤ '9'), cs.dropWhile (fun c => '0' ≤ c ∧ c ≤ '9'))

/-- Numeric value of a digit run. -/
def natOfDigits (ds : List Char) : Nat :=
  ds.foldl (fun a c => a * 10 + (c.toNat - 48)) 0

/-- The integer part of a number literal: `0|[1-9]\d*` (no leading
zeros; a bare `0` does not absorb following digits). -/
def lexIntPart : List Char → Option (List Char × List Char)
  | '0' :: rest => some (['0'], rest)
  | c :: rest =>
    if '1' ≤ c ∧ c ≤ '9' then
      match spanDigits rest with
      | (ds, r) => some (c :: ds, r)
    else none
  | [] => none

/-- The optional fraction part `(\.\d+)?`: consumes nothing unless a dot
with at least one digit follows. -/
def lexFrac (cs : List Char) : List Char × List Char :=
  match cs with
  | '.' :: rest =>
    match spanDigits rest with
    | ([], _) => ([], cs)
    | (ds, r) => ('.' :: ds, r)
  | _ => ([], cs)

/-- The optional exponent part `([eE][-+]?\d+)?`. -/
def lexExp (cs : List Char) : List Char × List Char :=
  match cs with
  | e :: s :: rest =>
    if e = 'e' ∨ e = 'E' then
      if s = '+' ∨ s = '-' then
        match spanDigits rest with
        | ([], _) => ([], cs)
        | (ds, r) => (e :: s :: ds, r)
      else
        match spanDigits (s :: rest) with
        | ([], _) => ([], cs)
        | (ds, r) => (e :: ds, r)
    else ([], cs)
  | _ => ([], cs)

/-- A number literal: integer literals become `VInt`, literals with a
fraction or exponent part keep their verbatim token as `VFloatTok`. -/
def lexNumber (cs : List Char) : Option (Value × List Char) :=
  let sign : Bool := match cs with | '-' :: _ => true | _ => false
  let cs1 := if sign then cs.tail else cs
  match lexIntPart cs1 with
  | none => none
  | some (ids, cs2) =>
    match lexFrac cs2 with
    | (fds, cs3) =>
      match lexExp cs3 with
      | (eds, cs4) =>
        if fds.isEmpty ∧ eds.isEmpty then
          some (VInt (if sign then -(natOfDigits ids : Int) else (natOfDigits ids : Int)), cs4)
        else
          some (VFloatTok ⟨(if sign then ['-'] else []) ++ ids ++ fds ++ eds⟩, cs4)

mutual

/-- One JSON value at the current (whitespace-free) position. -/
def parseVal : Nat → List Char → Option (Value × List Char)
  | 0, _ => none
  | fuel + 1, cs =>
    match cs with
    | '"' :: rest => (scanStr rest).map (fun p => (VStr ⟨p.1⟩, p.2))
    | '{' :: rest =>
      (match skipWs rest with
       | '}' :: r => some (VObj [], r)
       | r => (parseMembers fuel r []).map (fun p => (VObj p.1, p.2)))
    | '[' :: rest =>
      (match skipWs rest with
       | ']' :: r => some (VArr [], r)
       | r => (parseElems fuel r []).map (fun p => (VArr p.1, p.2)))
    | 't' :: 'r' :: 'u' :: 'e' :: rest => some (VBool true, rest)
    | 'f' :: 'a' :: 'l' :: 's' :: 'e' :: rest => some (VBool false, rest)
    | 'n' :: 'u' :: 'l' :: 'l' :: rest => some (VNull, rest)
    | 'N' :: 'a' :: 'N' :: rest => some (VFloatTok "NaN", rest)
    | 'I' :: 'n' :: 'f' :: 'i' :: 'n' :: 'i' :: 't' :: 'y' :: rest =>
      some (VFloatTok "Infinity", rest)
    | '-' :: 'I' :: 'n' :: 'f' :: 'i' :: 'n' :: 'i' :: 't' :: 'y' :: rest =>
      some (VFloatTok "-Infinity", rest)
    | _ => lexNumber cs

/-- The members of an object after its opening brace (position at the
first key's quote). -/
def parseMembers :
    Nat → List Char → List (String × Value) → Option (List (String × Value) × List Char)
  | 0, _, _ => none
  | fuel + 1, cs, acc =>
    match cs with
    | '"' :: rest =>
      (match scanStr rest with
       | none => none
       | some (k, r1) =>
         match skipWs r1 with
         | ':' :: r2 =>
           (match parseVal fuel (skipWs r2) with
            | none => none
            | some (v, r3) =>
              match skipWs r3 with
              | ',' :: r4 => parseMembers fuel (skipWs r4) (acc ++ [(⟨k⟩, v)])
              | '}' :: r4 => some (acc ++ [(⟨k⟩, v)], r4)
              | _ => none)
         | _ => none)
    | _ => none

/-- The elements of an array after its opening bracket (position at the
first element). -/
def parseElems : Nat → List Char → List Value → Option (List Value × List Char)
  | 0, _, _ => none
  | fuel + 1, cs, acc =>
    match parseVal fuel cs with
    | none => none
    | some (v, r) =>
      match skipWs r with
      | ',' :: r2 => parseElems fuel (skipWs r2) (acc ++ [v])
      | ']' :: r2 => some (acc ++ [v], r2)
      | _ => none

end

/-- Python `json.loads`: skip leading whitespace, read one value,
require only whitespace after it. -/
def jsonParse (s : String) : Option Value :=
  match parseVal (2 * s.data.length + 2) (skipWs s.data) with
  | some (v, rest) => if (skipWs rest).isEmpty then some v else none
  | none => none

/-! ## The link decoder -/

/-- Python `s.startswith(p)`. -/
def pyStartsWith (s p : String) : Bool := p.data.isPrefixOf s.data

/-- Python `s[n:]` (character based, as on a `str`). -/
def pyDrop (s : String) (n : Nat) : String := ⟨s.data.drop n⟩

/-- The two failure kinds of `decode_vmess`: the scheme check raised
before the `try` block, and the unified wrapper for anything the
`try` block catches (base64, ASCII/UTF-8 or JSON failure). -/
inductive VmessErr where
  | invalidScheme : VmessErr
  | decodeError : String → VmessErr
deriving Repr, DecidableEq

/-- The decoder `decode_vmess` (source lines 9–29): check the scheme,
strip 8 characters, base64-decode, UTF-8-decode, JSON-parse, and return
whatever `json.loads` produced. Every failure inside the `try` block is
collapsed into `decodeError` with its cause. -/
def decode_vmess (link : String) : Except VmessErr Value :=
  if pyStartsWith link "vmess://" then
    match b64decode (pyDrop link 8) with
    | .error e => .error (.decodeError e)
    | .ok bytes =>
      match utf8Decode bytes with
      | none => .error (.decodeError "utf-8 codec cannot decode")
      | some s =>
        match jsonParse s with
        | none => .error (.decodeError "JSON parse failure")
        | some v => .ok v
  else .error .invalidScheme

/-- The JSON payload of the end-to-end example. -/
def exampleJson : String :=
  "\x7b\"ps\":\"Test\",\"add\":\"1.2.3.4\",\"port\":\"10086\",\"id\":\"abc-123\",\"aid\":\"0\",\"net\":\"ws\",\"path\":\"/path\",\"host\":\"a.com\",\"tls\":\"tls\"\x7d"

/-- The example payload as a `vmess://` link. -/
def exampleLink : String := "vmess://" ++ b64encode (utf8Encode exampleJson)

/-! ## Derived forms used by the statements -/

/-- The record of the end-to-end example, as decoded. -/
def exampleRecord : List (String × Value) :=
  [("ps", VStr "Test"), ("add", VStr "1.2.3.4"), ("port", VStr "10086"),
   ("id", VStr "abc-123"), ("aid", VStr "0"), ("net", VStr "ws"),
   ("path", VStr "/path"), ("host", VStr "a.com"), ("tls", VStr "tls")]

/-- The proxy entry the end-to-end example must produce. -/
def exampleProxy : ClashProxy :=
  { name := VStr "Test", type := "vmess", server := VStr "1.2.3.4", port := 10086
    uuid := VStr "abc-123", alterId := 0, cipher := VStr "auto", udp := true
    tls := true, skipCertVerify := true, network := VStr "ws"
    wsOpts := some ⟨VStr "/path", [("host", VStr "a.com")]⟩ }

/-- Strip the trailing `'='` padding from a base64 text. -/
def stripPad (s : String) : String :=
  ⟨(s.data.reverse.dropWhile (fun c => c = '=')).reverse⟩

/-- The value line 73 binds to `security` on a dict input (its `or`
resolved): the `scy` value when truthy — and the `"auto"` default of
`.get("scy", "auto")` is itself truthy — otherwise the `security` value. -/
def resolvedSec (l : List (String × Value)) : Value :=
  if truthy (pyLookupD l "scy" (VStr "auto")) then pyLookupD l "scy" (VStr "auto")
  else pyLookupD l "security" (VStr "auto")

/-- The document `generate_clash_config` produces on a dict input, as a
function of the looked-up field values and the already-coerced
port/alter-id integers. -/
def mkDoc (ps sec0 : Value) (lw : String) (server uuid tlsV netV pathV hostV : Value)
    (pt ad : Int) : ClashConfig :=
  { port := 7890
    socksPort := 7891
    allowLan := true
    mode := "rule"
    logLevel := "info"
    externalController := "127.0.0.1:9090"
    proxies :=
      [{ name := ps, type := "vmess", server := server, port := pt, uuid := uuid
         alterId := ad, cipher := if lw = "zero" then VStr "auto" else sec0
         udp := true, tls := isStrEq tlsV "tls", skipCertVerify := true
         network := netV
         wsOpts := if isStrEq netV "ws" then some ⟨pathV, [("host", hostV)]⟩ else none }]
    proxyGroups :=
      [⟨"PROXY", "select", none, none, [VStr "自动选择", ps]⟩,
       ⟨"自动选择", "url-test", some "http://www.gstatic.com/generate_204", some 300, [ps]⟩]
    rules := ["MATCH,PROXY"] }

/-- The proxy entry produced for the empty record (all defaults). -/
def defaultProxy : ClashProxy :=
  { name := VStr "Vmess节点", type := "vmess", server := VStr "", port := 443
    uuid := VStr "", alterId := 0, cipher := VStr "auto", udp := true
    tls := false, skipCertVerify := true, network := VStr "tcp", wsOpts := none }

/-- The document produced for the empty record. -/
def defaultDoc : ClashConfig :=
  { port := 7890
    socksPort := 7891
    allowLan := true
    mode := "rule"
    logLevel := "info"
    externalController := "127.0.0.1:9090"
    proxies := [defaultProxy]
    proxyGroups :=
      [⟨"PROXY", "select", none, none, [VStr "自动选择", VStr "Vmess节点"]⟩,
       ⟨"自动选择", "url-test", some "http://www.gstatic.com/generate_204", some 300,
        [VStr "Vmess节点"]⟩]
    rules := ["MATCH,PROXY"] }

/-- A record selecting the WebSocket transport. -/
def wsRecord : List (String × Value) :=
  [("net", VStr "ws"), ("path", VStr "/ws"), ("host", VStr "example.com")]

/-- The proxy entry produced for `wsRecord`. -/
def wsProxy : ClashProxy :=
  { name := VStr "Vmess节点", type := "vmess", server := VStr "", port := 443
    uuid := VStr "", alterId := 0, cipher := VStr "auto", udp := true
    tls := false, skipCertVerify := true, network := VStr "ws"
    wsOpts := some ⟨VStr "/ws", [("host", VStr "example.com")]⟩ }

/-- The document produced for `wsRecord`. -/
def wsDoc : ClashConfig :=
  { port := 7890
    socksPort := 7891
    allowLan := true
    mode := "rule"
    logLevel := "info"
    externalController := "127.0.0.1:9090"
    proxies := [wsProxy]
    proxyGroups :=
      [⟨"PROXY", "select", none, none, [VStr "自动选择", VStr "Vmess节点"]⟩,
       ⟨"自动选择", "url-test", some "http://www.gstatic.com/generate_204", some 300,
        [VStr "Vmess节点"]⟩]
    rules := ["MATCH,PROXY"] }

/-- The input keys the mapper reads. -/
def elevenKeys : List String :=
  ["ps", "scy", "security", "add", "port", "id", "aid", "tls", "net", "path", "host"]

/-! ## Helper lemmas -/

theorem except_bind_ok {ε α β : Type} (a : α) (f : α → Except ε β) :
    (Except.ok a : Except ε α) >>= f = f a := rfl

theorem except_bind_error {ε α β : Type} (e : ε) (f : α → Except ε β) :
    (Except.error e : Except ε α) >>= f = (Except.error e : Except ε β) := rfl

theorem except_pure {ε α : Type} (a : α) : (pure a : Except ε α) = Except.ok a := rfl

theorem resolveSecurity_obj (l : List (String × Value)) :
    resolveSecurity (VObj l) = .ok (resolvedSec l) := by
  unfold resolveSecurity resolvedSec
  cases h : truthy (pyLookupD l "scy" (VStr "auto")) <;>
    simp [pyGet, except_bind_ok, except_pure, h]

/-- Evaluation of `generate_clash_config` on a dict input, as one
equation: it fails
exactly when `.lower()` or one of the two `int(...)` coercions fails
(in source order), and otherwise produces `mkDoc` of the looked-up
values. -/
theorem gen_obj_eq (l : List (String × Value)) :
    generate_clash_config (VObj l) =
      (match pyLower (resolvedSec l), pyInt (pyLookupD l "port" (VInt 443)),
          pyInt (pyLookupD l "aid" (VInt 0)) with
       | .error e, _, _ => .error e
       | .ok _, .error e, _ => .error e
       | .ok _, .ok _, .error e => .error e
       | .ok lw, .ok pt, .ok ad =>
         .ok (mkDoc (pyLookupD l "ps" (VStr "Vmess节点")) (resolvedSec l) lw
           (pyLookupD l "add" (VStr "")) (pyLookupD l "id" (VStr ""))
           (pyLookupD l "tls" (VStr "")) (pyLookupD l "net" (VStr "tcp"))
           (pyLookupD l "path" (VStr "/")) (pyLookupD l "host" (VStr "")) pt ad)) := by
  cases hlw : pyLower (resolvedSec l) <;>
    cases hpt : pyInt (pyLookupD l "port" (VInt 443)) <;>
      cases had : pyInt (pyLookupD l "aid" (VInt 0)) <;>
        cases hws : isStrEq (pyLookupD l "net" (VStr "tcp")) "ws" <;>
          simp [generate_clash_config, pyGet, resolveSecurity_obj, hlw, hpt, had, hws,
            mkDoc, except_bind_ok, except_bind_error, except_pure]

theorem isVStr_of_lower_ok {v : Value} {s : String} (h : pyLower v = .ok s) :
    isVStr v = true := by
  cases v <;> simp_all [pyLower, isVStr]

theorem isVStr_of_lower_err {v : Value} {e : String} (h : pyLower v = .error e) :
    isVStr v = false := by
  cases v <;> simp_all [pyLower, isVStr]

theorem isStrEq_iff {v : Value} {s : String} : isStrEq v s = true ↔ v = VStr s := by
  cases v <;> simp [isStrEq]

theorem gen_nonobj {cfg : Value} (h : ∀ l, cfg ≠ VObj l) :
    generate_clash_config cfg = .error "AttributeError: object has no attribute get" := by
  cases cfg <;>
    first
      | exact absurd rfl (h _)
      | simp [generate_clash_config, pyGet, except_bind_error]

/-! ### Base64 roundtrip -/

theorem b64_table : ∀ v, v < 64 →
    b64Val (b64Char v) = some v ∧ b64Char v ≠ '=' ∧ (b64Char v).toNat < 128 := by
  decide

theorem b64Char_eq_default (v : Nat) (h : 64 ≤ v) : b64Char v = 'A' := by
  unfold b64Char
  exact List.getD_eq_default _ _ (by rw [show b64Alphabet.length = 64 from rfl]; omega)

theorem b64Char_ascii (v : Nat) : (b64Char v).toNat < 128 := by
  rcases Nat.lt_or_ge v 64 with h | h
  · exact (b64_table v h).2.2
  · rw [b64Char_eq_default v h]
    decide

theorem b64Char_ne_pad (v : Nat) : b64Char v ≠ '=' := by
  rcases Nat.lt_or_ge v 64 with h | h
  · exact (b64_table v h).2.1
  · rw [b64Char_eq_default v h]
    decide

theorem b64step0 (v : Nat) (hv : v < 64) (rest : List Char) (lc pads : Nat) (acc : List Nat) :
    b64core (b64Char v :: rest) 0 lc pads acc = b64core rest 1 v 0 acc := by
  simp [b64core, (b64_table v hv).1, (b64_table v hv).2.1]

theorem b64step1 (v : Nat) (hv : v < 64) (rest : List Char) (lc pads : Nat) (acc : List Nat) :
    b64core (b64Char v :: rest) 1 lc pads acc =
      b64core rest 2 (v % 16) 0 ((lc * 4 + v / 16) :: acc) := by
  simp [b64core, (b64_table v hv).1, (b64_table v hv).2.1]

theorem b64step2 (v : Nat) (hv : v < 64) (rest : List Char) (lc pads : Nat) (acc : List Nat) :
    b64core (b64Char v :: rest) 2 lc pads acc =
      b64core rest 3 (v % 4) 0 ((lc * 16 + v / 4) :: acc) := by
  simp [b64core, (b64_table v hv).1, (b64_table v hv).2.1]

theorem b64step3 (v : Nat) (hv : v < 64) (rest : List Char) (lc pads : Nat) (acc : List Nat) :
    b64core (b64Char v :: rest) 3 lc pads acc =
      b64core rest 0 0 0 ((lc * 64 + v) :: acc) := by
  simp [b64core, (b64_table v hv).1, (b64_table v hv).2.1]

theorem b64pad2 (rest : List Char) (lc : Nat) (acc : List Nat) :
    b64core ('=' :: rest) 2 lc 0 acc = b64core rest 2 lc 1 acc := by
  simp [b64core]

theorem b64pad2b (rest : List Char) (lc : Nat) (acc : List Nat) :
    b64core ('=' :: rest) 2 lc 1 acc = .ok acc.reverse := by
  simp [b64core]

theorem b64pad3 (rest : List Char) (lc : Nat) (acc : List Nat) :
    b64core ('=' :: rest) 3 lc 0 acc = .ok acc.reverse := by
  simp [b64core]

theorem b64core_enc : ∀ (bs acc : List Nat), (∀ b ∈ bs, b < 256) →
    b64core (b64encodeList bs) 0 0 0 acc = .ok (acc.reverse ++ bs)
  | [], acc, _ => by simp [b64encodeList, b64core]
  | [a], acc, h => by
    have ha : a < 256 := h a (by simp)
    show b64core [b64Char (a / 4), b64Char (a % 4 * 16), '=', '='] 0 0 0 acc =
      .ok (acc.reverse ++ [a])
    rw [b64step0 _ (by omega), b64step1 _ (by omega),
      show a / 4 * 4 + a % 4 * 16 / 16 = a from by omega,
      show a % 4 * 16 % 16 = 0 from by omega,
      b64pad2, b64pad2b]
    simp
  | [a, b], acc, h => by
    have ha : a < 256 := h a (by simp)
    have hb : b < 256 := h b (by simp)
    show b64core [b64Char (a / 4), b64Char (a % 4 * 16 + b / 16), b64Char (b % 16 * 4), '=']
        0 0 0 acc = .ok (acc.reverse ++ [a, b])
    rw [b64step0 _ (by omega), b64step1 _ (by omega),
      show a / 4 * 4 + (a % 4 * 16 + b / 16) / 16 = a from by omega,
      show (a % 4 * 16 + b / 16) % 16 = b / 16 from by omega,
      b64step2 _ (by omega),
      show b / 16 * 16 + b % 16 * 4 / 4 = b from by omega,
      show b % 16 * 4 % 4 = 0 from by omega,
      b64pad3]
    simp
  | a :: b :: c :: rest, acc, h => by
    have ha : a < 256 := h a (by simp)
    have hb : b < 256 := h b (by simp)
    have hc : c < 256 := h c (by simp)
    show b64core (b64Char (a / 4) :: b64Char (a % 4 * 16 + b / 16) ::
        b64Char (b % 16 * 4 + c / 64) :: b64Char (c % 64) :: b64encodeList rest)
        0 0 0 acc = .ok (acc.reverse ++ (a :: b :: c :: rest))
    rw [b64step0 _ (by omega), b64step1 _ (by omega),
      show a / 4 * 4 + (a % 4 * 16 + b / 16) / 16 = a from by omega,
      show (a % 4 * 16 + b / 16) % 16 = b / 16 from by omega,
      b64step2 _ (by omega),
      show b / 16 * 16 + (b % 16 * 4 + c / 64) / 4 = b from by omega,
      show (b % 16 * 4 + c / 64) % 4 = c / 64 from by omega,
      b64step3 _ (by omega),
      show c / 64 * 64 + c % 64 = c from by omega,
      b64core_enc rest (c :: b :: a :: acc) (fun x hx => h x (by simp [hx]))]
    simp

theorem b64encodeList_ascii : ∀ (bs : List Nat), ∀ c ∈ b64encodeList bs, c.toNat < 128
  | [] => by simp [b64encodeList]
  | [a] => by
    intro c hc
    simp only [b64encodeList, List.mem_cons, List.not_mem_nil, or_false] at hc
    rcases hc with rfl | rfl | rfl | rfl
    · exact b64Char_ascii _
    · exact b64Char_ascii _
    · decide
    · decide
  | [a, b] => by
    intro c hc
    simp only [b64encodeList, List.mem_cons, List.not_mem_nil, or_false] at hc
    rcases hc with rfl | rfl | rfl | rfl
    · exact b64Char_ascii _
    · exact b64Char_ascii _
    · exact b64Char_ascii _
    · decide
  | a :: b :: c :: rest => by
    intro x hx
    simp only [b64encodeList, List.mem_cons] at hx
    rcases hx with rfl | rfl | rfl | rfl | hx
    · exact b64Char_ascii _
    · exact b64Char_ascii _
    · exact b64Char_ascii _
    · exact b64Char_ascii _
    · exact b64encodeList_ascii rest x hx

theorem b64decode_encode (bs : List Nat) (h : ∀ b ∈ bs, b < 256) :
    b64decode (b64encode bs) = .ok bs := by
  unfold b64decode b64encode
  rw [if_pos]
  · simpa using b64core_enc bs [] h
  · rw [List.all_eq_true]
    intro c hc
    simpa using b64encodeList_ascii bs c hc

theorem b64encodeList_no_pad : ∀ (bs : List Nat), bs.length % 3 = 0 →
    ∀ c ∈ b64encodeList bs, c ≠ '='
  | [], _ => by simp [b64encodeList]
  | [a], h => by simp at h
  | [a, b], h => by simp at h
  | a :: b :: c :: rest, h => by
    intro x hx
    simp only [b64encodeList, List.mem_cons] at hx
    rcases hx with rfl | rfl | rfl | rfl | hx
    · exact b64Char_ne_pad _
    · exact b64Char_ne_pad _
    · exact b64Char_ne_pad _
    · exact b64Char_ne_pad _
    · exact b64encodeList_no_pad rest (by simp at h; omega) x hx

theorem stripPad_of_no_pad (s : String) (h : ∀ c ∈ s.data, c ≠ '=') : stripPad s = s := by
  unfold stripPad
  have hd : s.data.reverse.dropWhile (fun c => c = '=') = s.data.reverse := by
    rcases hr : s.data.reverse with _ | ⟨c, t⟩
    · rfl
    · rw [List.dropWhile_cons, if_neg]
      simp only [decide_eq_true_eq]
      exact h c (by rw [← List.mem_reverse, hr]; simp)
  rw [hd, List.reverse_reverse]

/-! ### UTF-8 roundtrip -/

theorem char_valid_ranges (c : Char) :
    c.toNat < 55296 ∨ (57343 < c.toNat ∧ c.toNat < 1114112) := c.valid

theorem utf8EncodeChar_eq1 (c : Char) (h : c.toNat < 128) :
    utf8EncodeChar c = [c.toNat] := by
  simp [utf8EncodeChar, h]

theorem utf8EncodeChar_eq2 (c : Char) (h1 : ¬c.toNat < 128) (h2 : c.toNat < 2048) :
    utf8EncodeChar c = [192 + c.toNat / 64, 128 + c.toNat % 64] := by
  simp [utf8EncodeChar, h1, h2]

theorem utf8EncodeChar_eq3 (c : Char) (h2 : ¬c.toNat < 2048) (h3 : c.toNat < 65536) :
    utf8EncodeChar c = [224 + c.toNat / 4096, 128 + c.toNat / 64 % 64, 128 + c.toNat % 64] := by
  have h1 : ¬c.toNat < 128 := by omega
  simp [utf8EncodeChar, h1, h2, h3]

theorem utf8EncodeChar_eq4 (c : Char) (h3 : ¬c.toNat < 65536) :
    utf8EncodeChar c =
      [240 + c.toNat / 262144, 128 + c.toNat / 4096 % 64, 128 + c.toNat / 64 % 64,
        128 + c.toNat % 64] := by
  have h1 : ¬c.toNat < 128 := by omega
  have h2 : ¬c.toNat < 2048 := by omega
  simp [utf8EncodeChar, h1, h2, h3]

theorem utf8DecodeOne_enc (c : Char) (rest : List Nat) :
    utf8DecodeOne (utf8EncodeChar c ++ rest) = some (c.toNat, rest) := by
  have hv := char_valid_ranges c
  by_cases h1 : c.toNat < 128
  · rw [utf8EncodeChar_eq1 c h1]
    simp only [List.cons_append, List.nil_append, utf8DecodeOne]
    rw [if_pos h1]
  · by_cases h2 : c.toNat < 2048
    · rw [utf8EncodeChar_eq2 c h1 h2]
      simp only [List.cons_append, List.nil_append, utf8DecodeOne]
      rw [if_neg (by omega), if_neg (by omega), if_pos (by omega),
        if_pos (by simp only [isCont, decide_eq_true_eq]; omega)]
      simp only [Option.some.injEq, Prod.mk.injEq]
      exact ⟨by omega, trivial⟩
    · by_cases h3 : c.toNat < 65536
      · rw [utf8EncodeChar_eq3 c h2 h3]
        simp only [List.cons_append, List.nil_append, utf8DecodeOne]
        rw [if_neg (by omega), if_neg (by omega), if_neg (by omega), if_pos (by omega),
          if_pos ?cond]
        case cond =>
          refine ⟨by simp only [isCont, decide_eq_true_eq]; omega,
            by simp only [isCont, decide_eq_true_eq]; omega, fun he => ?_, fun he => ?_⟩
          · omega
          · omega
        simp only [Option.some.injEq, Prod.mk.injEq]
        exact ⟨by omega, trivial⟩
      · rw [utf8EncodeChar_eq4 c h3]
        simp only [List.cons_append, List.nil_append, utf8DecodeOne]
        rw [if_neg (by omega), if_neg (by omega), if_neg (by omega), if_neg (by omega),
          if_pos (by omega), if_pos ?cond4]
        case cond4 =>
          refine ⟨by simp only [isCont, decide_eq_true_eq]; omega,
            by simp only [isCont, decide_eq_true_eq]; omega,
            by simp only [isCont, decide_eq_true_eq]; omega, fun he => ?_, fun he => ?_⟩
          · omega
          · omega
        simp only [Option.some.injEq, Prod.mk.injEq]
        exact ⟨by omega, trivial⟩

theorem utf8EncodeChar_ne_nil (c : Char) : utf8EncodeChar c ≠ [] := by
  simp only [utf8EncodeChar]
  split_ifs <;> simp

theorem utf8EncodeChar_lt256 (c : Char) : ∀ b ∈ utf8EncodeChar c, b < 256 := by
  have hv := char_valid_ranges c
  intro b hb
  simp only [utf8EncodeChar] at hb
  split_ifs at hb <;> simp at hb <;> omega

theorem utf8DecodeLoop_enc : ∀ (cs : List Char) (fuel : Nat),
    (cs.flatMap utf8EncodeChar).length ≤ fuel →
    utf8DecodeLoop fuel (cs.flatMap utf8EncodeChar) = some cs
  | [], fuel, _ => by
    rw [List.flatMap_nil]
    cases fuel <;> rfl
  | c :: cs, fuel, hf => by
    rw [List.flatMap_cons] at hf ⊢
    rcases fuel with _ | fuel
    · exfalso
      rcases he : utf8EncodeChar c with _ | ⟨b, bt⟩
      · exact utf8EncodeChar_ne_nil c he
      · rw [he] at hf
        simp at hf
    · have hone := utf8DecodeOne_enc c (cs.flatMap utf8EncodeChar)
      rcases he : utf8EncodeChar c with _ | ⟨b, bt⟩
      · exact absurd he (utf8EncodeChar_ne_nil c)
      · rw [he, List.cons_append] at hone
        rw [he] at hf
        simp only [utf8DecodeLoop, List.append_eq]
        rw [hone]
        dsimp only
        rw [utf8DecodeLoop_enc cs fuel
          (by simp only [List.length_cons, List.length_append] at hf; omega)]
        simp [Char.ofNat_toNat]

theorem utf8Encode_lt256 (s : String) : ∀ b ∈ utf8Encode s, b < 256 := by
  intro b hb
  unfold utf8Encode at hb
  rw [List.mem_flatMap] at hb
  rcases hb with ⟨c, _, hbc⟩
  exact utf8EncodeChar_lt256 c b hbc

theorem utf8Decode_encode (s : String) : utf8Decode (utf8Encode s) = some s := by
  unfold utf8Decode
  rw [show utf8Encode s = s.data.flatMap utf8EncodeChar from rfl,
    utf8DecodeLoop_enc s.data _ (le_refl _)]
  rfl

/-! ### Scheme prefix facts -/

theorem pyStartsWith_append (t : String) :
    pyStartsWith ("vmess://" ++ t) "vmess://" = true := by
  unfold pyStartsWith
  rw [String.data_append]
  rw [ List.isPrefixOf_iff_prefix]
  exact List.prefix_append _ _

theorem pyDrop_vmess (t : String) : pyDrop ("vmess://" ++ t) 8 = t := by
  unfold pyDrop
  rw [String.data_append,
    show (8 : Nat) = ("vmess://" : String).data.length from rfl, List.drop_left]

theorem decode_vmess_concat (s : String) (v : Value) (h : jsonParse s = some v) :
    decode_vmess ("vmess://" ++ b64encode (utf8Encode s)) = .ok v := by
  simp only [decode_vmess, pyStartsWith_append, if_true, pyDrop_vmess,
    b64decode_encode _ (utf8Encode_lt256 s), utf8Decode_encode, h]

/-! ## Claim theorems -/

/-- C1. The claim's cipher resolution (`scy`, else `security`, else
`"auto"`) disagrees with the code: on line 73 the first operand of `or`
is `vmess_config.get("scy", "auto")`, whose `"auto"` default is truthy,
so when `scy` is absent the `security` key is never consulted. Evaluated
at the failing input `{"security": "aes-128-gcm"}` (with `scy` absent),
the code produces cipher `"auto"`, not `"aes-128-gcm"` as the claim
requires. -/
theorem c1_security_fallback_dead :
    (generate_clash_config (VObj [("security", VStr "aes-128-gcm")])).map
      (fun d => d.proxies.map ClashProxy.cipher) = .ok [VStr "auto"] := rfl

/-- C2 (counterexample). The mapper is not total: the record
`{"port": "abc"}` makes `int(vmess_config.get("port", 443))` raise,
contradicting the claim that the mapper succeeds on every record. -/
theorem c2_counterexample :
    generate_clash_config (VObj [("port", VStr "abc")]) =
      .error "invalid literal for int: abc" := rfl

/-- C2 (amended). The mapper succeeds exactly when the resolved cipher
value is a string and the `port` and `aid` values admit Python `int()`
coercion; field absence alone never causes failure, since every lookup
carries a default (the empty record satisfies the right-hand side). -/
theorem c2_mapper_totality_characterized (l : List (String × Value)) :
    (∃ d, generate_clash_config (VObj l) = .ok d) ↔
      (isVStr (resolvedSec l) = true ∧ pyIntOk (pyLookupD l "port" (VInt 443)) = true ∧
        pyIntOk (pyLookupD l "aid" (VInt 0)) = true) := by
  rw [gen_obj_eq]
  cases hlw : pyLower (resolvedSec l)
  case error e =>
    simp [isVStr_of_lower_err hlw]
  case ok lw =>
    cases hpt : pyInt (pyLookupD l "port" (VInt 443))
    case error e =>
      simp [isVStr_of_lower_ok hlw, pyIntOk, hpt]
    case ok pt =>
      cases had : pyInt (pyLookupD l "aid" (VInt 0)) <;>
        simp [isVStr_of_lower_ok hlw, pyIntOk, hpt, had]

/-- C2 (witness): the all-defaults record maps successfully. -/
theorem c2_witness : ∃ d, generate_clash_config (VObj []) = .ok d :=
  (c2_mapper_totality_characterized []).mpr ⟨rfl, rfl, rfl⟩

/-- C5 (counterexample). The claim (every member name of every group is
the name of a proxies entry) fails already on the empty record: the
`"PROXY"` group's member list contains `"自动选择"`, which names the
other group, while the only proxy is named `"Vmess节点"`. -/
theorem c5_counterexample :
    generate_clash_config (VObj []) = .ok defaultDoc ∧
      ∃ g ∈ defaultDoc.proxyGroups, ∃ n ∈ g.proxies,
        ∀ p ∈ defaultDoc.proxies, p.name ≠ n := by
  refine ⟨rfl, ⟨"PROXY", "select", none, none, [VStr "自动选择", VStr "Vmess节点"]⟩,
    by simp [defaultDoc], VStr "自动选择", by simp, ?_⟩
  intro p hp
  simp only [defaultDoc, List.mem_singleton] at hp
  subst hp
  simp [defaultProxy]

/-- C5 (amended). Every name in any group's member list is either the
name of an entry of the proxies sequence or the name of another
proxy-group of the document (the `"PROXY"` group references the
auto-select group by name). -/
theorem c5_group_members_closed (cfg : Value) (d : ClashConfig)
    (h : generate_clash_config cfg = .ok d) :
    ∀ g ∈ d.proxyGroups, ∀ n ∈ g.proxies,
      (∃ p ∈ d.proxies, p.name = n) ∨ ∃ g2 ∈ d.proxyGroups, VStr g2.name = n := by
  cases cfg
  case VObj l =>
    rw [gen_obj_eq] at h
    cases hlw : pyLower (resolvedSec l) <;> rw [hlw] at h
    case error => cases h
    cases hpt : pyInt (pyLookupD l "port" (VInt 443)) <;> rw [hpt] at h
    case error => cases h
    cases had : pyInt (pyLookupD l "aid" (VInt 0)) <;> rw [had] at h
    case error => cases h
    cases h
    intro g hg n hn
    simp only [mkDoc, List.mem_cons, List.not_mem_nil, or_false] at hg
    rcases hg with rfl | rfl
    · simp only [List.mem_cons, List.not_mem_nil, or_false] at hn
      rcases hn with rfl | rfl
      · right
        simp [mkDoc]
      · left
        simp [mkDoc]
    · simp only [List.mem_cons, List.not_mem_nil, or_false] at hn
      subst hn
      left
      simp [mkDoc]
  all_goals
    rw [gen_nonobj (by intro l hl; cases hl)] at h
    cases h

/-- C5 (witness): the amended statement at the empty record, at the
`"PROXY"` group's member `"自动选择"`. -/
theorem c5_witness :
    (∃ p ∈ defaultDoc.proxies, p.name = VStr "自动选择") ∨
      ∃ g2 ∈ defaultDoc.proxyGroups, VStr g2.name = VStr "自动选择" :=
  c5_group_members_closed (VObj []) defaultDoc rfl
    ⟨"PROXY", "select", none, none, [VStr "自动选择", VStr "Vmess节点"]⟩
    (by simp [defaultDoc]) (VStr "自动选择") (by simp)

/-- C6. The scheme check: a link not starting with the exact prefix
`"vmess://"` fails with the scheme error (raised before the `try`
block); a link with the prefix never takes that branch. -/
theorem c6_scheme_check (link : String) :
    (pyStartsWith link "vmess://" = false → decode_vmess link = .error .invalidScheme) ∧
    (pyStartsWith link "vmess://" = true → decode_vmess link ≠ .error .invalidScheme) := by
  cases h : pyStartsWith link "vmess://"
  · exact ⟨fun _ => by simp [decode_vmess, h], fun hc => by simp [h] at hc⟩
  · refine ⟨fun hc => by simp [h] at hc, fun _ => ?_⟩
    simp only [decode_vmess, h, if_true]
    rcases hb : b64decode (pyDrop link 8) with e | bs
    · simp [hb]
    · rcases hu : utf8Decode bs with _ | s
      · simp [hb, hu]
      · rcases hj : jsonParse s with _ | v <;> simp [hb, hu, hj]

/-- C6 (witness): both directions at concrete links. -/
theorem c6_witness :
    decode_vmess "http://x" = .error .invalidScheme ∧
      decode_vmess "vmess://e30" ≠ .error .invalidScheme :=
  ⟨(c6_scheme_check "http://x").1 rfl, (c6_scheme_check "vmess://e30").2 rfl⟩

/-- C7. A proxy entry carries `ws-opts` iff the looked-up `net` value
(default `"tcp"`) is the string `"ws"`; in that case its path is the
`path` value (default `"/"`) and its header dict is the single entry
`host` (default `""`). -/
theorem c7_ws_opts (l : List (String × Value)) (d : ClashConfig)
    (h : generate_clash_config (VObj l) = .ok d) :
    ∀ p ∈ d.proxies,
      (p.wsOpts.isSome = true ↔ pyLookupD l "net" (VStr "tcp") = VStr "ws") ∧
      (pyLookupD l "net" (VStr "tcp") = VStr "ws" →
        p.wsOpts = some ⟨pyLookupD l "path" (VStr "/"),
          [("host", pyLookupD l "host" (VStr ""))]⟩) := by
  rw [gen_obj_eq] at h
  cases hlw : pyLower (resolvedSec l) <;> rw [hlw] at h
  case error => cases h
  cases hpt : pyInt (pyLookupD l "port" (VInt 443)) <;> rw [hpt] at h
  case error => cases h
  cases had : pyInt (pyLookupD l "aid" (VInt 0)) <;> rw [had] at h
  case error => cases h
  cases h
  intro p hp
  simp only [mkDoc, List.mem_singleton] at hp
  subst hp
  cases hws : isStrEq (pyLookupD l "net" (VStr "tcp")) "ws"
  · have : ¬(pyLookupD l "net" (VStr "tcp") = VStr "ws") := by
      rw [← isStrEq_iff, hws]
      simp
    simp [hws, this]
  · have := isStrEq_iff.mp hws
    simp [hws, this]

/-- C7 (witness): the `ws` record and the `tcp`-by-default record. -/
theorem c7_witness :
    (wsProxy.wsOpts.isSome = true ↔ pyLookupD wsRecord "net" (VStr "tcp") = VStr "ws") ∧
      (pyLookupD wsRecord "net" (VStr "tcp") = VStr "ws" →
        wsProxy.wsOpts = some ⟨pyLookupD wsRecord "path" (VStr "/"),
          [("host", pyLookupD wsRecord "host" (VStr ""))]⟩) :=
  c7_ws_opts wsRecord wsDoc rfl wsProxy (by simp [wsDoc])

/-- C8. The end-to-end example: decoding the encoded link yields the
example record, and mapping it yields exactly the proxy entry stated in
the spec (name `"Test"`, server `"1.2.3.4"`, port 10086, uuid
`"abc-123"`, alterId 0, cipher `"auto"`, network `"ws"`, tls true,
ws-opts path `"/path"` and host header `"a.com"`). -/
theorem c8_end_to_end :
    decode_vmess exampleLink = .ok (VObj exampleRecord) ∧
      (generate_clash_config (VObj exampleRecord)).map (fun d => d.proxies) =
        .ok [exampleProxy] :=
  ⟨by set_option maxRecDepth 10000 in rfl, rfl⟩

/-- C9. The document has exactly the two default groups; every produced
proxy's name is a member of both; and the `"PROXY"` group's member list
contains the auto-select group's own name. -/
theorem c9_group_membership (cfg : Value) (d : ClashConfig)
    (h : generate_clash_config cfg = .ok d) :
    ∃ g0 g1, d.proxyGroups = [g0, g1] ∧ g0.name = "PROXY" ∧ g0.type = "select" ∧
      g1.name = "自动选择" ∧ g1.type = "url-test" ∧
      (∀ p ∈ d.proxies, p.name ∈ g0.proxies ∧ p.name ∈ g1.proxies) ∧
      VStr g1.name ∈ g0.proxies := by
  cases cfg
  case VObj l =>
    rw [gen_obj_eq] at h
    cases hlw : pyLower (resolvedSec l) <;> rw [hlw] at h
    case error => cases h
    cases hpt : pyInt (pyLookupD l "port" (VInt 443)) <;> rw [hpt] at h
    case error => cases h
    cases had : pyInt (pyLookupD l "aid" (VInt 0)) <;> rw [had] at h
    case error => cases h
    cases h
    refine ⟨_, _, rfl, rfl, rfl, rfl, rfl, ?_, by simp⟩
    intro p hp
    simp only [mkDoc, List.mem_singleton] at hp
    subst hp
    simp
  all_goals
    rw [gen_nonobj (by intro l hl; cases hl)] at h
    cases h

/-- C9 (witness): the empty record's document. -/
theorem c9_witness :
    ∃ g0 g1, defaultDoc.proxyGroups = [g0, g1] ∧ g0.name = "PROXY" ∧ g0.type = "select" ∧
      g1.name = "自动选择" ∧ g1.type = "url-test" ∧
      (∀ p ∈ defaultDoc.proxies, p.name ∈ g0.proxies ∧ p.name ∈ g1.proxies) ∧
      VStr g1.name ∈ g0.proxies :=
  c9_group_membership (VObj []) defaultDoc rfl

/-- C10. The mapper reads only the eleven keys `ps`, `scy`, `security`,
`add`, `port`, `id`, `aid`, `tls`, `net`, `path`, `host`: two records
agreeing on them (including absence) map identically; and a successful
document's proxies sequence has exactly one entry. -/
theorem c10_noninterference :
    (∀ l1 l2 : List (String × Value),
        (∀ k ∈ elevenKeys, pyLookup l1 k = pyLookup l2 k) →
        generate_clash_config (VObj l1) = generate_clash_config (VObj l2)) ∧
    (∀ cfg d, generate_clash_config cfg = .ok d → d.proxies.length = 1) := by
  constructor
  · intro l1 l2 h
    have hps := h "ps" (by simp [elevenKeys])
    have hscy := h "scy" (by simp [elevenKeys])
    have hsec := h "security" (by simp [elevenKeys])
    have hadd := h "add" (by simp [elevenKeys])
    have hport := h "port" (by simp [elevenKeys])
    have hid := h "id" (by simp [elevenKeys])
    have haid := h "aid" (by simp [elevenKeys])
    have htls := h "tls" (by simp [elevenKeys])
    have hnet := h "net" (by simp [elevenKeys])
    have hpath := h "path" (by simp [elevenKeys])
    have hhost := h "host" (by simp [elevenKeys])
    rw [gen_obj_eq, gen_obj_eq]
    simp only [resolvedSec, pyLookupD, hps, hscy, hsec, hadd, hport, hid, haid, htls,
      hnet, hpath, hhost]
  · intro cfg d h
    cases cfg
    case VObj l =>
      rw [gen_obj_eq] at h
      cases hlw : pyLower (resolvedSec l) <;> rw [hlw] at h
      case error => cases h
      cases hpt : pyInt (pyLookupD l "port" (VInt 443)) <;> rw [hpt] at h
      case error => cases h
      cases had : pyInt (pyLookupD l "aid" (VInt 0)) <;> rw [had] at h
      case error => cases h
      cases h
      simp [mkDoc]
    all_goals
      rw [gen_nonobj (by intro l hl; cases hl)] at h
      cases h

/-- C10 (witness): a record differing from the empty one only on an
irrelevant key maps identically, and the empty record's document has
one proxy. -/
theorem c10_witness :
    generate_clash_config (VObj [("other", VInt 1)]) = generate_clash_config (VObj []) ∧
      defaultDoc.proxies.length = 1 :=
  ⟨c10_noninterference.1 [("other", VInt 1)] []
      (by intro k hk; fin_cases hk <;> rfl),
    c10_noninterference.2 (VObj []) defaultDoc rfl⟩

/-- C3 (counterexample). `"e30="` is the base64 encoding of the JSON
object payload `"{}"`; the padded link decodes, but the padding-stripped
link fails with `Incorrect padding` (CPython's `b64decode` requires the
data-plus-padding length to be a multiple of four), refuting the claim
that both forms decode. -/
theorem c3_counterexample :
    b64encode (utf8Encode "\x7b\x7d") = "e30=" ∧
      stripPad "e30=" = "e30" ∧
      jsonParse "\x7b\x7d" = some (VObj []) ∧
      decode_vmess "vmess://e30=" = .ok (VObj []) ∧
      decode_vmess "vmess://e30" = .error (.decodeError "Incorrect padding") :=
  ⟨rfl, rfl, rfl, rfl, rfl⟩

/-- C3 (amended). For every JSON payload, the padded base64 form always
decodes to the parsed value; the padding-stripped form is additionally
guaranteed only when the encoding carries no padding, i.e. when the
payload's UTF-8 byte length is a multiple of three. -/
theorem c3_base64_padding (s : String) (v : Value) (h : jsonParse s = some v) :
    decode_vmess ("vmess://" ++ b64encode (utf8Encode s)) = .ok v ∧
    ((utf8Encode s).length % 3 = 0 →
      decode_vmess ("vmess://" ++ stripPad (b64encode (utf8Encode s))) = .ok v) := by
  refine ⟨decode_vmess_concat s v h, fun h3 => ?_⟩
  have hnp : stripPad (b64encode (utf8Encode s)) = b64encode (utf8Encode s) :=
    stripPad_of_no_pad (b64encode (utf8Encode s))
      (fun c hc => b64encodeList_no_pad _ h3 c hc)
  rw [hnp]
  exact decode_vmess_concat s v h

/-- C3 (witness): the payload `"[1]"` (3 UTF-8 bytes, so no padding) in
both forms. -/
theorem c3_witness :
    decode_vmess ("vmess://" ++ b64encode (utf8Encode "[1]")) = .ok (VArr [VInt 1]) ∧
      decode_vmess ("vmess://" ++ stripPad (b64encode (utf8Encode "[1]"))) =
        .ok (VArr [VInt 1]) :=
  ⟨(c3_base64_padding "[1]" (VArr [VInt 1]) rfl).1,
    (c3_base64_padding "[1]" (VArr [VInt 1]) rfl).2 rfl⟩

/-- C4 (counterexample). `"W10="` is valid base64 of the valid-JSON
payload `"[]"`, whose top level is an array, not an object: `decode`
returns the array instead of failing with `DecodeError` as the claim
requires for a non-object top level (`json.loads` accepts any top-level
value and line 27 returns it unchecked). -/
theorem c4_counterexample :
    b64encode (utf8Encode "[]") = "W10=" ∧
      decode_vmess "vmess://W10=" = .ok (VArr []) := ⟨rfl, rfl⟩

/-- C4 (amended). For a prefixed link, a failure of any of the three
stages — base64 decode, UTF-8 decode, JSON parse — yields the unified
`decodeError` kind (the non-object-top-level clause of the original
claim is dropped; such payloads decode successfully). -/
theorem c4_decode_error_stages (link : String)
    (h : pyStartsWith link "vmess://" = true) :
    (∀ e, b64decode (pyDrop link 8) = .error e →
        decode_vmess link = .error (.decodeError e)) ∧
    (∀ bs, b64decode (pyDrop link 8) = .ok bs → utf8Decode bs = none →
        decode_vmess link = .error (.decodeError "utf-8 codec cannot decode")) ∧
    (∀ bs s, b64decode (pyDrop link 8) = .ok bs → utf8Decode bs = some s →
        jsonParse s = none →
        decode_vmess link = .error (.decodeError "JSON parse failure")) := by
  refine ⟨fun e he => ?_, fun bs hb hu => ?_, fun bs s hb hu hj => ?_⟩
  · simp [decode_vmess, h, he]
  · simp [decode_vmess, h, hb, hu]
  · simp [decode_vmess, h, hb, hu, hj]

/-- C4 (witness): one concrete link per failure stage. -/
theorem c4_witness :
    decode_vmess "vmess://e3" = .error (.decodeError "Incorrect padding") ∧
      decode_vmess "vmess:///w==" = .error (.decodeError "utf-8 codec cannot decode") ∧
      decode_vmess "vmess://" = .error (.decodeError "JSON parse failure") :=
  ⟨(c4_decode_error_stages "vmess://e3" rfl).1 "Incorrect padding" rfl,
    (c4_decode_error_stages "vmess:///w==" rfl).2.1 [255] rfl rfl,
    (c4_decode_error_stages "vmess://" rfl).2.2 [] "" rfl rfl rfl⟩
